import Mathlib

/-!
Shallow embedding of the core of `viztaz_app.py` (TAZ_Geo_Reviewer).

Modelling conventions:
* Machine floats of the source are modelled as rationals (`ℚ`); the claims
  under verification are about structural behaviour (row counts, ordering,
  state preservation, which records are kept), not float rounding.
* A pandas/geopandas cell value (`number | string | None`) is `CellValue`.
* A shapely geometry attached to a record is `Option Geometry` (`none` is
  Python `None`); `Geometry.is_empty` models shapely's `is_empty`.
* External shapely/geopandas operations whose internals the program never
  looks at (`unary_union`, `centroid`, `buffer`, `intersects`, float
  formatting) are fields of a `Backend` record: the program only calls them
  and threads their results around, which is what the embedding reproduces.
* Bokeh data sources are the plain column dictionaries the program stores
  into them; widget/document state mutated by the handlers is collected in
  `AppState`, and each handler becomes a function `AppState → AppState`.
-/

/-- A pandas cell: a numeric value, a string, or null (`None`/`NaN`). -/
inductive CellValue where
  | num (q : ℚ)
  | str (s : String)
  | null
deriving DecidableEq

/-- A shapely polygon, reduced to what the program reads: the coordinate
sequence of its exterior ring (`geom.exterior.coords`). Holes are never
accessed by the source. -/
structure Polygon where
  ext : List (ℚ × ℚ)
deriving DecidableEq

/-- A record geometry as dispatched on by `geom.geom_type`: the loaded
datasets hold polygons or multipolygons only. -/
inductive Geometry where
  | poly (p : Polygon)
  | multi (ps : List Polygon)
deriving DecidableEq

/-- Models shapely `is_empty`: an empty polygon has no exterior coordinates,
an empty multipolygon has no parts. -/
def Geometry.is_empty : Geometry → Bool
  | .poly p => p.ext.isEmpty
  | .multi ps => ps.isEmpty

/-- One row of a GeoDataFrame as the program reads it: the numeric id column
(`taz_id` / `BLOCK_ID`) used for filtering, the geometry (possibly `None`),
and the remaining attribute columns as a key/value list. -/
structure GeoRecord where
  idnum : Int
  geometry : Option Geometry
  attrs : List (String × CellValue)
deriving DecidableEq

/-- `row[c]` for an attribute column, after `split_multipolygons_to_cds`
has ensured missing `ensure_cols` exist with value `None`
(`if c not in gdf.columns: gdf[c] = None`). -/
def attrGet (r : GeoRecord) (c : String) : CellValue :=
  match r.attrs.find? (fun p => p.1 = c) with
  | some p => p.2
  | none => CellValue.null

/-- The rings one source record contributes, in source order: records with
`None`/empty geometry are skipped, a multipolygon contributes its parts in
order, a polygon contributes itself (mirrors the body of the `iterrows`
loops of `split_multipolygons_to_cds` and `split_multipolygons_to_text`,
which both perform this exact dispatch). -/
def recRings (r : GeoRecord) : List Polygon :=
  match r.geometry with
  | none => []
  | some g =>
    if g.is_empty then []
    else
      match g with
      | .multi ps => ps
      | .poly p => [p]

/-- The flattened (ring, parent record) sequence the `iterrows` loop of
`split_multipolygons_to_cds` walks: source-record order, then
constituent-polygon order within a record. -/
def cdsRings (gdf : List GeoRecord) : List (Polygon × GeoRecord) :=
  gdf.flatMap (fun r => (recRings r).map (fun p => (p, r)))

/-- The column dictionary of a bokeh `ColumnDataSource` as the program
builds it: parallel `xs`/`ys`/`id` columns, one attribute column per
`ensure_cols` entry, and the `*_fmt` string columns added later by
`add_formatted_fields`. -/
structure CDS where
  xs : List (List ℚ)
  ys : List (List ℚ)
  ids : List String
  attrs : List (String × List CellValue)
  fmts : List (String × List String)
deriving DecidableEq

/-- `split_multipolygons_to_cds(gdf, id_field, ensure_cols)`: the Python
loop appends, for every emitted ring, one entry to each of the columns in
lockstep; each column therefore equals the corresponding map over the
flattened ring sequence `cdsRings gdf`. `id` entries are `str(row[id_field])`. -/
def split_multipolygons_to_cds (gdf : List GeoRecord) (ensure_cols : List String) : CDS :=
  { xs := (cdsRings gdf).map (fun q => q.1.ext.map Prod.fst)
  , ys := (cdsRings gdf).map (fun q => q.1.ext.map Prod.snd)
  , ids := (cdsRings gdf).map (fun q => toString q.2.idnum)
  , attrs := ensure_cols.map (fun c => (c, (cdsRings gdf).map (fun q => attrGet q.2 c)))
  , fmts := [] }

/-- Models shapely `Polygon.centroid` (area-weighted centroid computed from
the closed exterior ring by the shoelace formula; the program never inspects
the numeric value, it only places labels there). -/
def polyCentroid (p : Polygon) : ℚ × ℚ :=
  let pairs := p.ext.zip p.ext.tail
  let a2 := pairs.foldl (fun acc q => acc + (q.1.1 * q.2.2 - q.2.1 * q.1.2)) 0
  let sx := pairs.foldl (fun acc q => acc + (q.1.1 + q.2.1) * (q.1.1 * q.2.2 - q.2.1 * q.1.2)) 0
  let sy := pairs.foldl (fun acc q => acc + (q.1.2 + q.2.2) * (q.1.1 * q.2.2 - q.2.1 * q.1.2)) 0
  if a2 = 0 then (0, 0) else (sx / (3 * a2), sy / (3 * a2))

/-- The centroid-label dictionary `{"cx": .., "cy": .., "id": ..}`. -/
structure TextData where
  cx : List ℚ
  cy : List ℚ
  ids : List String
deriving DecidableEq

/-- `split_multipolygons_to_text(gdf, id_field)`: its own `iterrows` loop
performs the same skip/dispatch as the cds variant and appends, per ring,
the ring centroid and `str(row[id_field])`. -/
def split_multipolygons_to_text (gdf : List GeoRecord) : TextData :=
  { cx := gdf.flatMap (fun r => (recRings r).map (fun p => (polyCentroid p).1))
  , cy := gdf.flatMap (fun r => (recRings r).map (fun p => (polyCentroid p).2))
  , ids := gdf.flatMap (fun r => (recRings r).map (fun _ => toString r.idnum)) }

/-- A plain Python dict of table columns (`d` in `add_sum_row` /
`update_new_taz_table`): insertion-ordered key/value pairs. -/
abbrev TableDict := List (String × List CellValue)

/-- `k in d`. -/
def dhas (d : TableDict) (k : String) : Bool :=
  d.any (fun p => p.1 = k)

/-- `d[k]`, reading `[]` for a missing key (the source only reads keys it
has ensured are present). -/
def dget (d : TableDict) (k : String) : List CellValue :=
  match d.find? (fun p => p.1 = k) with
  | some p => p.2
  | none => []

/-- `d[k] = v`: overwrite in place if the key exists (dict order is kept),
else append the new key at the end. -/
def dset (d : TableDict) (k : String) (v : List CellValue) : TableDict :=
  if dhas d k then d.map (fun p => if p.1 = k then (k, v) else p)
  else d ++ [(k, v)]

/-- `isinstance(val, (int, float))` accumulation of `add_sum_row`:
numeric cells add their value, strings and nulls add nothing. -/
def numAdd (acc : ℚ) (v : CellValue) : ℚ :=
  match v with
  | .num q => acc + q
  | _ => acc

/-- The inner `for val in d[c]` sum of `add_sum_row`. -/
def colSum (l : List CellValue) : ℚ :=
  l.foldl numAdd 0

/-- `add_sum_row(d, colnames)`: ensure the `id` (and then every `colnames`)
key exists, compute per-column sums of the current rows skipping
non-numeric cells, then append `"Sum"` to `id` and each column's sum to it. -/
def add_sum_row (d : TableDict) (colnames : List String) : TableDict :=
  let d0 := if dhas d "id" then d
            else colnames.foldl (fun acc c => dset acc c []) (dset d "id" [])
  let sums := colnames.map (fun c => (c, colSum (dget d0 c)))
  let d1 := dset d0 "id" (dget d0 "id" ++ [CellValue.str "Sum"])
  colnames.foldl
    (fun acc c =>
      dset acc c (dget acc c ++
        [CellValue.num (((sums.find? (fun p => p.1 = c)).map Prod.snd).getD 0)]))
    d1

/-- The nine keys of the attribute-table dict `d` built by
`update_new_taz_table` / `update_blocks_table`. -/
def tableKeys : List String :=
  ["id", "HH19", "PERSNS19", "WORKRS19", "EMP19", "HH49", "PERSNS49", "WORKRS49", "EMP49"]

/-- The eight numeric columns passed to `add_sum_row`. -/
def numColNames : List String :=
  ["HH19", "PERSNS19", "WORKRS19", "EMP19", "HH49", "PERSNS49", "WORKRS49", "EMP49"]

/-- `source.data[c]` of a ring `ColumnDataSource`, as read by the table
updates: the `id` column holds the ring id strings, the attribute columns
their cell values; a missing column gives `none` (`c in source.data` false). -/
def CDS.col (s : CDS) (c : String) : Option (List CellValue) :=
  if c = "id" then some (s.ids.map CellValue.str)
  else (s.attrs.find? (fun p => p.1 = c)).map Prod.snd

/-- `update_new_taz_table()` with the current selection `inds` on source
`src`: start from all-empty columns, fill each key that exists in the
source with the selected rows in selection order (only when the selection
is nonempty), then `add_sum_row`. -/
def update_new_taz_table (src : CDS) (inds : List Nat) : TableDict :=
  let d : TableDict :=
    if inds.isEmpty then tableKeys.map (fun c => (c, []))
    else tableKeys.map (fun c =>
      match src.col c with
      | some l => (c, inds.map (fun i => l.getD i CellValue.null))
      | none => (c, []))
  add_sum_row d numColNames

/-- `update_blocks_table()`: same shape, but indexes every key of `d`
unconditionally (the blocks source always carries all eight columns; a
missing column is read as empty here where Python would raise). -/
def update_blocks_table (src : CDS) (inds : List Nat) : TableDict :=
  let d : TableDict :=
    if inds.isEmpty then tableKeys.map (fun c => (c, []))
    else tableKeys.map (fun c =>
      (c, inds.map (fun i => ((src.col c).getD []).getD i CellValue.null)))
  add_sum_row d numColNames

/-- `add_formatted_fields(source, fields)`: for each requested field that
exists, add a parallel `field + "_fmt"` string column, formatting numeric
cells with the external `"{x:.1f}"` formatter and everything else as `""`. -/
def add_formatted_fields (s : CDS) (fields : List String) (fmt1 : ℚ → String) : CDS :=
  { s with fmts := s.fmts ++
      (fields.filterMap (fun f =>
        match s.col f with
        | some l => some (f ++ "_fmt",
            l.map (fun v => match v with | .num q => fmt1 q | _ => ""))
        | none => none)) }

/-- The external shapely/geopandas operations `run_search` calls but never
inspects: union of a subset's geometries (`subset.unary_union`), centroid of
a geometry, circular buffer of a point (returned as the polygon whose
exterior the code reads), the boolean `intersects` test of a record geometry
against the buffer (geopandas yields `False` for missing geometries), and
the `"{x:.1f}"` float formatter. -/
structure Backend where
  union_of : List (Option Geometry) → Geometry
  g_centroid : Geometry → ℚ × ℚ
  buffer : ℚ × ℚ → ℚ → Polygon
  intersects : Option Geometry → Polygon → Bool
  fmt1 : ℚ → String

/-- One panel's axis ranges (`x_range.start/end`, `y_range.start/end`). -/
structure Viewport where
  x_start : ℚ
  x_stop : ℚ
  y_start : ℚ
  y_stop : ℚ
deriving DecidableEq

/-- An axis-aligned bounding box `(minx, miny, maxx, maxy)`. -/
structure BBox where
  minx : ℚ
  miny : ℚ
  maxx : ℚ
  maxy : ℚ
deriving DecidableEq

/-- The viewport-fitting logic of `run_search` (source lines 537-542):
a degenerate box (zero width or zero height) is padded by an absolute 1000
on both axes; otherwise each axis is padded by 5% of its own span. -/
def fit_viewport (b : BBox) : Viewport :=
  if b.minx = b.maxx ∨ b.miny = b.maxy then
    ⟨b.minx - 1000, b.maxx + 1000, b.miny - 1000, b.maxy + 1000⟩
  else
    let dx := b.maxx - b.minx
    let dy := b.maxy - b.miny
    ⟨b.minx - (5 / 100) * dx, b.maxx + (5 / 100) * dx,
     b.miny - (5 / 100) * dy, b.maxy + (5 / 100) * dy⟩

/-- All coordinates of a record's geometry, for `total_bounds`. -/
def recPoints (r : GeoRecord) : List (ℚ × ℚ) :=
  (recRings r).flatMap (fun p => p.ext)

/-- `subset.total_bounds`: the coordinate-wise min/max over every geometry
of the subset. A collection without coordinates yields the degenerate
`(0,0,0,0)` (geopandas would give NaNs; `run_search` only reaches this
call with a nonempty subset of loaded, nonempty geometries). -/
def total_bounds (gdf : List GeoRecord) : BBox :=
  match gdf.flatMap recPoints with
  | [] => ⟨0, 0, 0, 0⟩
  | q :: rest =>
    rest.foldl
      (fun acc q2 => ⟨min acc.minx q2.1, min acc.miny q2.2,
                      max acc.maxx q2.1, max acc.maxy q2.2⟩)
      ⟨q.1, q.2, q.1, q.2⟩

/-- The outcome of `int(text_input.value.strip())`: the stripped text is
empty, fails to parse as an integer (`ValueError`), or parses. Python's
builtin string parsing is the external part; the orchestration branches
only on these three outcomes. -/
inductive IdInput where
  | empty
  | invalid
  | parsed (n : Int)
deriving DecidableEq

/-- The outcome of `float(radius_input.value.strip())`: `ValueError` or a
parsed number. -/
inductive RadiusInput where
  | invalid
  | parsed (r : ℚ)
deriving DecidableEq

/-- The outcome of parsing the extra-TAZ text: empty stripped input, or the
per-token `int()` results of the non-blank comma-separated tokens (`none`
marks a token that raises `ValueError`, which aborts the whole
comprehension). -/
inductive ExtraInput where
  | empty
  | toks (ts : List (Option Int))
deriving DecidableEq

/-- All module-level mutable state the three handlers under verification
touch: the status label, every `ColumnDataSource.data` they assign, the two
tables' selections, the four panels' ranges, and `radius_input.value`. -/
structure AppState where
  search_label : String
  centroid_cx : List ℚ
  centroid_cy : List ℚ
  buffer_cds : CDS
  neighbors_cds : CDS
  old_cds : CDS
  new_cds : CDS
  blocks_cds : CDS
  old_blocks_cds : CDS
  new_blocks_cds : CDS
  combined_old_cds : CDS
  combined_new_cds : CDS
  combined_blocks_cds : CDS
  old_text : TextData
  new_text : TextData
  extra_cds : CDS
  extra_text : TextData
  new_sel : List Nat
  blocks_sel : List Nat
  new_table : TableDict
  blocks_table : TableDict
  vp_old : Viewport
  vp_new : Viewport
  vp_combined : Viewport
  vp_blocks : Viewport
  radius_val : String
deriving DecidableEq

/-- The `{"xs": [], "ys": [], "id": []}` dictionary. -/
def emptyCDS : CDS :=
  { xs := [], ys := [], ids := [], attrs := [], fmts := [] }

/-- The `{"cx": [], "cy": [], "id": []}` dictionary. -/
def emptyText : TextData :=
  { cx := [], cy := [], ids := [] }

/-- The eight attribute columns `run_search` passes as `ensure_cols`. -/
def attrCols : List String :=
  ["HH19", "PERSNS19", "WORKRS19", "EMP19", "HH49", "PERSNS49", "WORKRS49", "EMP49"]

/-- The four fields `add_formatted_fields` is asked to format. -/
def fmtCols : List String :=
  ["HH19", "EMP19", "HH49", "EMP49"]

/-- Status label contents, keeping just the variable part of the HTML the
source writes into `search_label.text`. -/
def labelNoInput : String := "(no input)"

/-- The `[TAZ Not Found]` status text (also used for a non-integer id). -/
def labelNotFound : String := "[TAZ Not Found]"

/-- The success status text: the searched id itself. -/
def labelSearching (n : Int) : String := toString n

/-- `run_search()` (source lines 458-554) over base datasets
`old_gdf`/`new_gdf`/`blk_gdf`, external backend `B`, the two parsed inputs,
and the current state. Mirrors the source's control flow: empty input and
unparseable id return after touching only the label; an unparseable radius
is coerced to 1000 and rewrites `radius_input.value`, a non-positive radius
is coerced to 1000 silently; an id matching no record returns after
touching only the label; otherwise every derived structure is recomputed
and replaced wholesale. -/
def run_search (old_gdf new_gdf blk_gdf : List GeoRecord) (B : Backend)
    (idin : IdInput) (radin : RadiusInput) (s0 : AppState) : AppState :=
  match idin with
  | .empty => { s0 with search_label := labelNoInput }
  | .invalid => { s0 with search_label := labelNotFound }
  | .parsed n =>
    let rs : ℚ × AppState :=
      match radin with
      | .parsed r => (if r ≤ 0 then 1000 else r, s0)
      | .invalid => (1000, { s0 with radius_val := "1000" })
    let radius := rs.1
    let s1 := rs.2
    let subset_old := old_gdf.filter (fun r => r.idnum = n)
    if subset_old.isEmpty then { s1 with search_label := labelNotFound }
    else
      let old_union := B.union_of (subset_old.map (fun r => r.geometry))
      let c := B.g_centroid old_union
      let buffer_geom := B.buffer c radius
      let neighbors := old_gdf.filter (fun r => B.intersects r.geometry buffer_geom)
      let new_sub := new_gdf.filter (fun r => B.intersects r.geometry buffer_geom)
      let blocks_sub := blk_gdf.filter (fun r => B.intersects r.geometry buffer_geom)
      let old_temp := split_multipolygons_to_cds subset_old []
      let new_temp := add_formatted_fields
        (split_multipolygons_to_cds new_sub attrCols) fmtCols B.fmt1
      let blocks_temp := add_formatted_fields
        (split_multipolygons_to_cds blocks_sub attrCols) fmtCols B.fmt1
      let blk_plain := split_multipolygons_to_cds blocks_sub []
      let vp := fit_viewport (total_bounds subset_old)
      { s1 with
        search_label := labelSearching n
        centroid_cx := [c.1]
        centroid_cy := [c.2]
        buffer_cds := { xs := [buffer_geom.ext.map Prod.fst]
                      , ys := [buffer_geom.ext.map Prod.snd]
                      , ids := [toString n], attrs := [], fmts := [] }
        neighbors_cds := split_multipolygons_to_cds neighbors []
        old_cds := old_temp
        new_cds := new_temp
        blocks_cds := blocks_temp
        old_blocks_cds := blk_plain
        new_blocks_cds := blk_plain
        combined_old_cds := old_temp
        combined_new_cds := new_temp
        combined_blocks_cds := blk_plain
        old_text := split_multipolygons_to_text subset_old
        new_text := split_multipolygons_to_text new_sub
        new_sel := []
        blocks_sel := []
        new_table := update_new_taz_table new_temp []
        blocks_table := update_blocks_table blocks_temp []
        vp_old := vp
        vp_new := vp
        vp_combined := vp
        vp_blocks := vp }

/-- `on_match_zoom_click()` (source lines 577-583): assign the old panel's
ranges verbatim to the other three panels. -/
def on_match_zoom_click (s : AppState) : AppState :=
  { s with vp_new := s.vp_old, vp_combined := s.vp_old, vp_blocks := s.vp_old }

/-- Clear the two overlay sources, as every bail-out branch of
`run_extra_search` does. -/
def clearExtra (s : AppState) : AppState :=
  { s with extra_cds := emptyCDS, extra_text := emptyText }

/-- `run_extra_search()` (source lines 586-606): empty input, any
unparseable token, or a parsed list matching no record all clear the two
overlay sources; otherwise both are recomputed from the matching subset.
Nothing else in the state is touched. -/
def run_extra_search (old_gdf : List GeoRecord) (inp : ExtraInput)
    (s : AppState) : AppState :=
  match inp with
  | .empty => clearExtra s
  | .toks ts =>
    if ts.any (fun t => t.isNone) then clearExtra s
    else
      let id_list := ts.filterMap (fun t => t)
      let subset_extra := old_gdf.filter (fun r => id_list.contains r.idnum)
      if subset_extra.isEmpty then clearExtra s
      else
        { s with extra_cds := split_multipolygons_to_cds subset_extra []
               , extra_text := split_multipolygons_to_text subset_extra }

/-- The radius value validation hands to the buffer builder: a parsed
positive number, otherwise the 1000 default. -/
def effRadius : RadiusInput → ℚ
  | .parsed r => if r ≤ 0 then 1000 else r
  | .invalid => 1000

/-- The buffer polygon a successful query builds: a circle of the effective
radius centered at the centroid of the union of the anchor subset. -/
def queryBuffer (old_gdf : List GeoRecord) (B : Backend) (n : Int)
    (radin : RadiusInput) : Polygon :=
  B.buffer
    (B.g_centroid (B.union_of
      ((old_gdf.filter (fun r => r.idnum = n)).map (fun r => r.geometry))))
    (effRadius radin)

/-- Concrete test square. -/
def P0 : Polygon := ⟨[(0, 0), (4, 0), (4, 4), (0, 4), (0, 0)]⟩

/-- Second concrete test square, disjoint from `P0`. -/
def P1 : Polygon := ⟨[(10, 10), (12, 10), (12, 12), (10, 12), (10, 10)]⟩

/-- A single-polygon record with id 7. -/
def rec7 : GeoRecord :=
  ⟨7, some (.poly P0), [("HH19", .num 3), ("EMP19", .num 2)]⟩

/-- A two-part multipolygon record with id 9. -/
def recM : GeoRecord :=
  ⟨9, some (.multi [P0, P1]), [("HH19", .num 5)]⟩

/-- A trivial concrete backend for closed evaluations: every geometry
intersects the buffer. -/
def Btriv : Backend :=
  { union_of := fun _ => .poly P0
  , g_centroid := fun _ => (2, 2)
  , buffer := fun _ _ => P0
  , intersects := fun _ _ => true
  , fmt1 := fun _ => "" }

/-- A concrete pre-call state with distinctive field values. -/
def st0 : AppState :=
  { search_label := "(none)"
  , centroid_cx := [1], centroid_cy := [2]
  , buffer_cds := { xs := [[3]], ys := [[4]], ids := ["b"], attrs := [], fmts := [] }
  , neighbors_cds := emptyCDS
  , old_cds := emptyCDS
  , new_cds := emptyCDS
  , blocks_cds := emptyCDS
  , old_blocks_cds := emptyCDS
  , new_blocks_cds := emptyCDS
  , combined_old_cds := emptyCDS
  , combined_new_cds := emptyCDS
  , combined_blocks_cds := emptyCDS
  , old_text := emptyText
  , new_text := emptyText
  , extra_cds := { xs := [[9]], ys := [[9]], ids := ["77"], attrs := [], fmts := [] }
  , extra_text := { cx := [9], cy := [9], ids := ["77"] }
  , new_sel := [0]
  , blocks_sel := [1]
  , new_table := [("id", [CellValue.str "0"])]
  , blocks_table := [("id", [CellValue.str "1"])]
  , vp_old := ⟨0, 10, 0, 10⟩
  , vp_new := ⟨1, 11, 1, 11⟩
  , vp_combined := ⟨2, 12, 2, 12⟩
  , vp_blocks := ⟨3, 13, 3, 13⟩
  , radius_val := "abc" }

/-- C9: copy-viewport is idempotent — a second invocation of
`on_match_zoom_click` leaves every target viewport identical to the first
invocation's result, and every target receives the old panel's viewport
verbatim. -/
theorem copy_viewport_idempotent (s : AppState) :
    on_match_zoom_click (on_match_zoom_click s) = on_match_zoom_click s
  ∧ (on_match_zoom_click s).vp_new = s.vp_old
  ∧ (on_match_zoom_click s).vp_combined = s.vp_old
  ∧ (on_match_zoom_click s).vp_blocks = s.vp_old
  ∧ (on_match_zoom_click s).vp_old = s.vp_old := by
  refine ⟨rfl, rfl, rfl, rfl, rfl⟩

/-- C3 (amended): a non-degenerate box is padded by 5% of each axis's own
span; a box with zero width or zero height is padded by an absolute 1000 on
both axes; only when the box is a single point does this produce a
2000-by-2000 box centered on that point. -/
theorem fit_viewport_padding (b : BBox) :
    (b.minx ≠ b.maxx ∧ b.miny ≠ b.maxy →
      fit_viewport b =
        ⟨b.minx - (5 / 100) * (b.maxx - b.minx), b.maxx + (5 / 100) * (b.maxx - b.minx),
         b.miny - (5 / 100) * (b.maxy - b.miny), b.maxy + (5 / 100) * (b.maxy - b.miny)⟩)
  ∧ (b.minx = b.maxx ∨ b.miny = b.maxy →
      fit_viewport b = ⟨b.minx - 1000, b.maxx + 1000, b.miny - 1000, b.maxy + 1000⟩)
  ∧ (b.minx = b.maxx ∧ b.miny = b.maxy →
      (fit_viewport b).x_stop - (fit_viewport b).x_start = 2000
    ∧ (fit_viewport b).y_stop - (fit_viewport b).y_start = 2000
    ∧ (fit_viewport b).x_start + (fit_viewport b).x_stop = 2 * b.minx
    ∧ (fit_viewport b).y_start + (fit_viewport b).y_stop = 2 * b.miny) := by
  refine ⟨?_, ?_, ?_⟩
  · intro h
    rw [fit_viewport, if_neg (by tauto)]
  · intro h
    rw [fit_viewport, if_pos h]
  · intro h
    obtain ⟨h1, h2⟩ := h
    rw [fit_viewport, if_pos (Or.inl h1)]
    refine ⟨by rw [h1]; ring, by rw [h2]; ring, by rw [h1]; ring, by rw [h2]; ring⟩

/-- C3 witness: the spec's own example box (0,0)-(100,200) is padded to
(-5, -10, 105, 210). -/
theorem fit_viewport_padding_witness :
    fit_viewport ⟨0, 0, 100, 200⟩ = ⟨-5, 105, -10, 210⟩ := by
  have h := (fit_viewport_padding ⟨0, 0, 100, 200⟩).1 (by norm_num)
  rw [h]
  norm_num

/-- C3 counterexample: the box (0,0)-(0,200) has zero width, so the claim as
stated requires the result to be a 2000-by-2000 box; the code pads both axes
by 1000, producing width 2000 but height 2200. -/
theorem fit_viewport_degenerate_counterexample :
    (fit_viewport ⟨0, 0, 0, 200⟩).x_stop - (fit_viewport ⟨0, 0, 0, 200⟩).x_start = 2000
  ∧ (fit_viewport ⟨0, 0, 0, 200⟩).y_stop - (fit_viewport ⟨0, 0, 0, 200⟩).y_start = 2200
  ∧ ¬ ((fit_viewport ⟨0, 0, 0, 200⟩).y_stop - (fit_viewport ⟨0, 0, 0, 200⟩).y_start = 2000) := by
  refine ⟨by norm_num [fit_viewport], by norm_num [fit_viewport], by norm_num [fit_viewport]⟩

/-- C10: the decomposer's output columns are parallel — `xs`, `ys`, `id` and
every carried attribute column have the same length — and the label table
built from the same collection has exactly one entry per emitted ring, with
an `id` sequence equal to the ring table's `id` sequence. -/
theorem decompose_parallel_columns (gdf : List GeoRecord) (cols : List String) :
    (split_multipolygons_to_cds gdf cols).xs.length
      = (split_multipolygons_to_cds gdf cols).ids.length
  ∧ (split_multipolygons_to_cds gdf cols).ys.length
      = (split_multipolygons_to_cds gdf cols).ids.length
  ∧ (∀ p ∈ (split_multipolygons_to_cds gdf cols).attrs,
      p.2.length = (split_multipolygons_to_cds gdf cols).ids.length)
  ∧ (split_multipolygons_to_text gdf).ids = (split_multipolygons_to_cds gdf cols).ids
  ∧ (split_multipolygons_to_text gdf).cx.length
      = (split_multipolygons_to_cds gdf cols).ids.length
  ∧ (split_multipolygons_to_text gdf).cy.length
      = (split_multipolygons_to_cds gdf cols).ids.length := by
  refine ⟨by simp [split_multipolygons_to_cds], by simp [split_multipolygons_to_cds], ?_, ?_, ?_, ?_⟩
  · intro p hp
    simp only [split_multipolygons_to_cds, List.mem_map] at hp ⊢
    obtain ⟨c, _, rfl⟩ := hp
    simp
  · simp only [split_multipolygons_to_text, split_multipolygons_to_cds, cdsRings,
      List.map_flatMap]
    congr 1
    funext r
    simp [Function.comp_def, List.map_const']
  · simp only [split_multipolygons_to_text, split_multipolygons_to_cds, cdsRings,
      List.length_flatMap, List.length_map]
    refine congrArg List.sum (List.map_congr_left ?_)
    intro r _
    simp [Function.comp_def]
  · simp only [split_multipolygons_to_text, split_multipolygons_to_cds, cdsRings,
      List.length_flatMap, List.length_map]
    refine congrArg List.sum (List.map_congr_left ?_)
    intro r _
    simp [Function.comp_def]

/-- A record with `None` or empty geometry contributes no rings. -/
theorem recRings_eq_nil (r : GeoRecord)
    (h : r.geometry = none ∨ ∃ g, r.geometry = some g ∧ g.is_empty = true) :
    recRings r = [] := by
  rcases h with h | ⟨g, hg, he⟩
  · simp [recRings, h]
  · simp [recRings, hg, he]

/-- C2: a record carrying a k-part multipolygon yields exactly k rings, each
with the parent's id string and a copy of each carried attribute value;
records with null or empty geometry are skipped without affecting the rest;
and output order is source-record order (rings of a prefix come first). -/
theorem decompose_rings_per_part (r0 : GeoRecord) (ps : List Polygon) (cols : List String)
    (pre post : List GeoRecord)
    (hg : r0.geometry = some (Geometry.multi ps)) (hne : ps ≠ []) :
    (split_multipolygons_to_cds [r0] cols).ids = List.replicate ps.length (toString r0.idnum)
  ∧ (∀ p ∈ (split_multipolygons_to_cds [r0] cols).attrs,
       p.2 = List.replicate ps.length (attrGet r0 p.1))
  ∧ (∀ rskip : GeoRecord,
       (rskip.geometry = none ∨ ∃ g, rskip.geometry = some g ∧ g.is_empty = true) →
       split_multipolygons_to_cds (pre ++ rskip :: post) cols
         = split_multipolygons_to_cds (pre ++ post) cols)
  ∧ (split_multipolygons_to_cds (pre ++ post) cols).ids
       = (split_multipolygons_to_cds pre cols).ids
         ++ (split_multipolygons_to_cds post cols).ids := by
  have hrr : recRings r0 = ps := by
    simp only [recRings, hg]
    rw [if_neg]
    simp [Geometry.is_empty, hne]
  refine ⟨?_, ?_, ?_, ?_⟩
  · simp [split_multipolygons_to_cds, cdsRings, hrr, List.map_map,
      Function.comp_def, List.map_const']
  · intro p hp
    simp only [split_multipolygons_to_cds, List.mem_map] at hp
    obtain ⟨c, _, rfl⟩ := hp
    simp [cdsRings, hrr, List.map_map, Function.comp_def, List.map_const']
  · intro rskip hskip
    have hc : cdsRings (pre ++ rskip :: post) = cdsRings (pre ++ post) := by
      simp [cdsRings, recRings_eq_nil rskip hskip]
    simp [split_multipolygons_to_cds, hc]
  · simp [split_multipolygons_to_cds, cdsRings]

/-- C2 witness: the concrete two-part record `recM` yields exactly two
rings, both labelled with its id. -/
theorem decompose_rings_per_part_witness :
    (split_multipolygons_to_cds [recM] ["HH19"]).ids
      = List.replicate 2 (toString recM.idnum) :=
  (decompose_rings_per_part recM [P0, P1] ["HH19"] [] [] rfl (by simp)).1

/-- Numeric reading of a cell: the value for numeric cells, 0 for strings
and nulls (the contribution a cell makes to a column sum). -/
def cellNum (v : CellValue) : ℚ :=
  match v with
  | .num q => q
  | _ => 0

/-- The accumulating loop of `add_sum_row` computes the sum of the numeric
readings of the column's cells. -/
theorem colSum_eq_sum (l : List CellValue) : colSum l = (l.map cellNum).sum := by
  have key : ∀ a : ℚ, l.foldl numAdd a = a + (l.map cellNum).sum := by
    induction l with
    | nil => intro a; simp
    | cons v t ih =>
      intro a
      simp only [List.foldl_cons, List.map_cons, List.sum_cons, ih]
      cases v <;> simp [numAdd, cellNum]
      ring
  simpa using key 0

/-- Indexing a string column lifted to cells agrees with indexing the
underlying string list, at valid indices. -/
theorem getD_map_str (l : List String) (i : Nat) (h : i < l.length) :
    (l.map CellValue.str).getD i CellValue.null = CellValue.str (l.getD i "") := by
  rw [List.getD_eq_getElem _ _ (by simpa using h), List.getD_eq_getElem _ _ h,
    List.getElem_map]

/-- `add_sum_row` on a dict holding the nine table keys in build order:
appends `"Sum"` to `id` and, to each numeric column, that column's
pre-append sum. -/
theorem add_sum_row_full (a b c d e f g h i : List CellValue) :
    add_sum_row [("id", a), ("HH19", b), ("PERSNS19", c), ("WORKRS19", d), ("EMP19", e),
                 ("HH49", f), ("PERSNS49", g), ("WORKRS49", h), ("EMP49", i)] numColNames
    = [("id", a ++ [CellValue.str "Sum"]),
       ("HH19", b ++ [CellValue.num (colSum b)]),
       ("PERSNS19", c ++ [CellValue.num (colSum c)]),
       ("WORKRS19", d ++ [CellValue.num (colSum d)]),
       ("EMP19", e ++ [CellValue.num (colSum e)]),
       ("HH49", f ++ [CellValue.num (colSum f)]),
       ("PERSNS49", g ++ [CellValue.num (colSum g)]),
       ("WORKRS49", h ++ [CellValue.num (colSum h)]),
       ("EMP49", i ++ [CellValue.num (colSum i)])] := by
  simp [add_sum_row, numColNames, dset, dget, dhas]

/-- With an empty selection the new-TAZ table update produces exactly the
Sum row with zeros. -/
theorem update_new_taz_table_empty (src : CDS) :
    update_new_taz_table src []
      = ("id", [CellValue.str "Sum"]) :: numColNames.map (fun c => (c, [CellValue.num 0])) := by
  simp [update_new_taz_table, tableKeys, numColNames, add_sum_row, dset, dget, dhas, colSum, numAdd]

/-- With an empty selection the blocks table update produces exactly the
Sum row with zeros. -/
theorem update_blocks_table_empty (src : CDS) :
    update_blocks_table src []
      = ("id", [CellValue.str "Sum"]) :: numColNames.map (fun c => (c, [CellValue.num 0])) := by
  simp [update_blocks_table, tableKeys, numColNames, add_sum_row, dset, dget, dhas, colSum, numAdd]

/-- With a nonempty selection, the new-TAZ table update fills all nine
columns from the source (which carries all eight numeric columns) and then
appends the Sum row. -/
theorem update_new_taz_table_cols (src : CDS) (inds : List Nat)
    (l1 l2 l3 l4 l5 l6 l7 l8 : List CellValue)
    (hinds : inds ≠ [])
    (h1 : src.col "HH19" = some l1) (h2 : src.col "PERSNS19" = some l2)
    (h3 : src.col "WORKRS19" = some l3) (h4 : src.col "EMP19" = some l4)
    (h5 : src.col "HH49" = some l5) (h6 : src.col "PERSNS49" = some l6)
    (h7 : src.col "WORKRS49" = some l7) (h8 : src.col "EMP49" = some l8) :
    update_new_taz_table src inds
      = [("id", (inds.map (fun i => (src.ids.map CellValue.str).getD i CellValue.null))
                  ++ [CellValue.str "Sum"]),
         ("HH19", (inds.map (fun i => l1.getD i CellValue.null))
                  ++ [CellValue.num (colSum (inds.map (fun i => l1.getD i CellValue.null)))]),
         ("PERSNS19", (inds.map (fun i => l2.getD i CellValue.null))
                  ++ [CellValue.num (colSum (inds.map (fun i => l2.getD i CellValue.null)))]),
         ("WORKRS19", (inds.map (fun i => l3.getD i CellValue.null))
                  ++ [CellValue.num (colSum (inds.map (fun i => l3.getD i CellValue.null)))]),
         ("EMP19", (inds.map (fun i => l4.getD i CellValue.null))
                  ++ [CellValue.num (colSum (inds.map (fun i => l4.getD i CellValue.null)))]),
         ("HH49", (inds.map (fun i => l5.getD i CellValue.null))
                  ++ [CellValue.num (colSum (inds.map (fun i => l5.getD i CellValue.null)))]),
         ("PERSNS49", (inds.map (fun i => l6.getD i CellValue.null))
                  ++ [CellValue.num (colSum (inds.map (fun i => l6.getD i CellValue.null)))]),
         ("WORKRS49", (inds.map (fun i => l7.getD i CellValue.null))
                  ++ [CellValue.num (colSum (inds.map (fun i => l7.getD i CellValue.null)))]),
         ("EMP49", (inds.map (fun i => l8.getD i CellValue.null))
                  ++ [CellValue.num (colSum (inds.map (fun i => l8.getD i CellValue.null)))])] := by
  have hid : src.col "id" = some (src.ids.map CellValue.str) := by
    simp [CDS.col]
  have hd : update_new_taz_table src inds
      = add_sum_row
          [("id", inds.map (fun i => (src.ids.map CellValue.str).getD i CellValue.null)),
           ("HH19", inds.map (fun i => l1.getD i CellValue.null)),
           ("PERSNS19", inds.map (fun i => l2.getD i CellValue.null)),
           ("WORKRS19", inds.map (fun i => l3.getD i CellValue.null)),
           ("EMP19", inds.map (fun i => l4.getD i CellValue.null)),
           ("HH49", inds.map (fun i => l5.getD i CellValue.null)),
           ("PERSNS49", inds.map (fun i => l6.getD i CellValue.null)),
           ("WORKRS49", inds.map (fun i => l7.getD i CellValue.null)),
           ("EMP49", inds.map (fun i => l8.getD i CellValue.null))] numColNames := by
    simp [update_new_taz_table, tableKeys, hinds, hid, h1, h2, h3, h4, h5, h6, h7, h8]
  rw [hd, add_sum_row_full]

/-- Reading each of the nine keys of a fully-built table dict. -/
theorem dget_nine (a b c d e f g h i : List CellValue) :
    (dget [("id", a), ("HH19", b), ("PERSNS19", c), ("WORKRS19", d), ("EMP19", e),
           ("HH49", f), ("PERSNS49", g), ("WORKRS49", h), ("EMP49", i)] "id" = a)
  ∧ (dget [("id", a), ("HH19", b), ("PERSNS19", c), ("WORKRS19", d), ("EMP19", e),
           ("HH49", f), ("PERSNS49", g), ("WORKRS49", h), ("EMP49", i)] "HH19" = b)
  ∧ (dget [("id", a), ("HH19", b), ("PERSNS19", c), ("WORKRS19", d), ("EMP19", e),
           ("HH49", f), ("PERSNS49", g), ("WORKRS49", h), ("EMP49", i)] "PERSNS19" = c)
  ∧ (dget [("id", a), ("HH19", b), ("PERSNS19", c), ("WORKRS19", d), ("EMP19", e),
           ("HH49", f), ("PERSNS49", g), ("WORKRS49", h), ("EMP49", i)] "WORKRS19" = d)
  ∧ (dget [("id", a), ("HH19", b), ("PERSNS19", c), ("WORKRS19", d), ("EMP19", e),
           ("HH49", f), ("PERSNS49", g), ("WORKRS49", h), ("EMP49", i)] "EMP19" = e)
  ∧ (dget [("id", a), ("HH19", b), ("PERSNS19", c), ("WORKRS19", d), ("EMP19", e),
           ("HH49", f), ("PERSNS49", g), ("WORKRS49", h), ("EMP49", i)] "HH49" = f)
  ∧ (dget [("id", a), ("HH19", b), ("PERSNS19", c), ("WORKRS19", d), ("EMP19", e),
           ("HH49", f), ("PERSNS49", g), ("WORKRS49", h), ("EMP49", i)] "PERSNS49" = g)
  ∧ (dget [("id", a), ("HH19", b), ("PERSNS19", c), ("WORKRS19", d), ("EMP19", e),
           ("HH49", f), ("PERSNS49", g), ("WORKRS49", h), ("EMP49", i)] "WORKRS49" = h)
  ∧ (dget [("id", a), ("HH19", b), ("PERSNS19", c), ("WORKRS19", d), ("EMP19", e),
           ("HH49", f), ("PERSNS49", g), ("WORKRS49", h), ("EMP49", i)] "EMP49" = i) := by
  refine ⟨?_, ?_, ?_, ?_, ?_, ?_, ?_, ?_, ?_⟩ <;> simp [dget]

set_option maxHeartbeats 1000000 in
/-- C1: for every source dataset carrying the eight numeric columns in
parallel with its ids, and every valid selection, the aggregated table has
`len(inds) + 1` entries in every column: the selected rows in selection
order followed by a `"Sum"` row whose value in each numeric column is the
arithmetic sum of that column over the selected rows, null/non-numeric
cells contributing 0; the empty selection gives exactly the Sum row with
every numeric column 0. -/
theorem aggregate_table_spec (src : CDS) (inds : List Nat)
    (hcols : ∀ c ∈ numColNames, ∃ l, src.col c = some l ∧ l.length = src.ids.length)
    (hidx : ∀ i ∈ inds, i < src.ids.length) :
    (∀ p ∈ update_new_taz_table src inds, p.2.length = inds.length + 1)
  ∧ dget (update_new_taz_table src inds) "id"
      = inds.map (fun i => CellValue.str (src.ids.getD i "")) ++ [CellValue.str "Sum"]
  ∧ (∀ c ∈ numColNames, ∀ l, src.col c = some l →
      dget (update_new_taz_table src inds) c
        = inds.map (fun i => l.getD i CellValue.null)
          ++ [CellValue.num ((inds.map (fun i => cellNum (l.getD i CellValue.null))).sum)])
  ∧ (inds = [] →
      update_new_taz_table src inds
        = ("id", [CellValue.str "Sum"]) :: numColNames.map (fun c => (c, [CellValue.num 0]))) := by
  by_cases hinds : inds = []
  · subst hinds
    rw [update_new_taz_table_empty]
    refine ⟨?_, by simp [dget, numColNames], ?_, fun _ => rfl⟩
    · intro p hp
      simp only [numColNames, List.map_cons, List.map_nil, List.mem_cons,
        List.not_mem_nil, or_false] at hp
      rcases hp with rfl | rfl | rfl | rfl | rfl | rfl | rfl | rfl | rfl <;> rfl
    · intro c hc l _
      simp only [numColNames, List.mem_cons, List.not_mem_nil, or_false] at hc
      rcases hc with rfl | rfl | rfl | rfl | rfl | rfl | rfl | rfl <;>
        simp [dget, numColNames]
  · obtain ⟨l1, h1, e1⟩ := hcols "HH19" (by simp [numColNames])
    obtain ⟨l2, h2, e2⟩ := hcols "PERSNS19" (by simp [numColNames])
    obtain ⟨l3, h3, e3⟩ := hcols "WORKRS19" (by simp [numColNames])
    obtain ⟨l4, h4, e4⟩ := hcols "EMP19" (by simp [numColNames])
    obtain ⟨l5, h5, e5⟩ := hcols "HH49" (by simp [numColNames])
    obtain ⟨l6, h6, e6⟩ := hcols "PERSNS49" (by simp [numColNames])
    obtain ⟨l7, h7, e7⟩ := hcols "WORKRS49" (by simp [numColNames])
    obtain ⟨l8, h8, e8⟩ := hcols "EMP49" (by simp [numColNames])
    have e := update_new_taz_table_cols src inds l1 l2 l3 l4 l5 l6 l7 l8 hinds
      h1 h2 h3 h4 h5 h6 h7 h8
    refine ⟨?_, ?_, ?_, fun hc => absurd hc hinds⟩
    · intro p hp
      rw [e] at hp
      simp only [List.mem_cons, List.not_mem_nil, or_false] at hp
      rcases hp with rfl | rfl | rfl | rfl | rfl | rfl | rfl | rfl | rfl <;> simp
    · rw [e, (dget_nine _ _ _ _ _ _ _ _ _).1]
      have hmap : inds.map (fun i => (src.ids.map CellValue.str).getD i CellValue.null)
          = inds.map (fun i => CellValue.str (src.ids.getD i "")) := by
        refine List.map_congr_left ?_
        intro i hi
        exact getD_map_str _ _ (hidx i hi)
      rw [hmap]
    · intro c hc l hl
      simp only [numColNames, List.mem_cons, List.not_mem_nil, or_false] at hc
      rcases hc with rfl | rfl | rfl | rfl | rfl | rfl | rfl | rfl
      · obtain rfl : l = l1 := Option.some.inj (hl.symm.trans h1)
        rw [e, (dget_nine _ _ _ _ _ _ _ _ _).2.1]
        simp [colSum_eq_sum, List.map_map, Function.comp_def]
      · obtain rfl : l = l2 := Option.some.inj (hl.symm.trans h2)
        rw [e, (dget_nine _ _ _ _ _ _ _ _ _).2.2.1]
        simp [colSum_eq_sum, List.map_map, Function.comp_def]
      · obtain rfl : l = l3 := Option.some.inj (hl.symm.trans h3)
        rw [e, (dget_nine _ _ _ _ _ _ _ _ _).2.2.2.1]
        simp [colSum_eq_sum, List.map_map, Function.comp_def]
      · obtain rfl : l = l4 := Option.some.inj (hl.symm.trans h4)
        rw [e, (dget_nine _ _ _ _ _ _ _ _ _).2.2.2.2.1]
        simp [colSum_eq_sum, List.map_map, Function.comp_def]
      · obtain rfl : l = l5 := Option.some.inj (hl.symm.trans h5)
        rw [e, (dget_nine _ _ _ _ _ _ _ _ _).2.2.2.2.2.1]
        simp [colSum_eq_sum, List.map_map, Function.comp_def]
      · obtain rfl : l = l6 := Option.some.inj (hl.symm.trans h6)
        rw [e, (dget_nine _ _ _ _ _ _ _ _ _).2.2.2.2.2.2.1]
        simp [colSum_eq_sum, List.map_map, Function.comp_def]
      · obtain rfl : l = l7 := Option.some.inj (hl.symm.trans h7)
        rw [e, (dget_nine _ _ _ _ _ _ _ _ _).2.2.2.2.2.2.2.1]
        simp [colSum_eq_sum, List.map_map, Function.comp_def]
      · obtain rfl : l = l8 := Option.some.inj (hl.symm.trans h8)
        rw [e, (dget_nine _ _ _ _ _ _ _ _ _).2.2.2.2.2.2.2.2]
        simp [colSum_eq_sum, List.map_map, Function.comp_def]

/-- C1 witness: aggregating rows 2 and 0 of the concrete decomposed dataset
yields the two selected ids in selection order followed by the Sum row. -/
theorem aggregate_table_spec_witness :
    dget (update_new_taz_table (split_multipolygons_to_cds [rec7, recM] attrCols) [2, 0]) "id"
      = [CellValue.str "9", CellValue.str "7", CellValue.str "Sum"] := by
  have h := (aggregate_table_spec (split_multipolygons_to_cds [rec7, recM] attrCols) [2, 0]
    (by intro c hc
        fin_cases hc <;> exact ⟨_, rfl, rfl⟩)
    (by decide)).2.1
  exact h.trans (by decide)

/-- A record of the collection contributing at least one ring has its id
string in the decomposed ring table. -/
theorem mem_split_ids (gdf : List GeoRecord) (cols : List String) (r : GeoRecord)
    (hr : r ∈ gdf) (hne : recRings r ≠ []) :
    toString r.idnum ∈ (split_multipolygons_to_cds gdf cols).ids := by
  simp only [split_multipolygons_to_cds, cdsRings, List.map_flatMap]
  rw [List.mem_flatMap]
  refine ⟨r, hr, ?_⟩
  obtain ⟨p, hp⟩ := List.exists_mem_of_ne_nil _ hne
  simp only [List.map_map, List.mem_map, Function.comp_def]
  exact ⟨p, hp, trivial⟩

/-- C5 (amended): each of the three datasets is filtered by the boolean
intersects predicate against the buffer built for the query, and the anchor
is NOT excluded from the old-zone neighbor subset — any old-zone record
with the anchor's id whose geometry intersects the buffer (and contributes
rings) appears in the neighbors ring table. -/
theorem filter_by_intersects_includes_anchor
    (old_gdf new_gdf blk_gdf : List GeoRecord) (B : Backend)
    (radin : RadiusInput) (s0 : AppState) (s1 : AppState) (n : Int)
    (hfound : (old_gdf.filter (fun r => r.idnum = n)).isEmpty = false)
    (hs : s1 = run_search old_gdf new_gdf blk_gdf B (.parsed n) radin s0) :
    s1.neighbors_cds
      = split_multipolygons_to_cds
          (old_gdf.filter (fun r => B.intersects r.geometry (queryBuffer old_gdf B n radin))) []
  ∧ s1.new_cds
      = add_formatted_fields
          (split_multipolygons_to_cds
            (new_gdf.filter (fun r => B.intersects r.geometry (queryBuffer old_gdf B n radin)))
            attrCols) fmtCols B.fmt1
  ∧ s1.blocks_cds
      = add_formatted_fields
          (split_multipolygons_to_cds
            (blk_gdf.filter (fun r => B.intersects r.geometry (queryBuffer old_gdf B n radin)))
            attrCols) fmtCols B.fmt1
  ∧ (∀ r ∈ old_gdf, r.idnum = n →
       B.intersects r.geometry (queryBuffer old_gdf B n radin) = true →
       recRings r ≠ [] →
       toString r.idnum ∈ s1.neighbors_cds.ids) := by
  have hmain : s1.neighbors_cds
      = split_multipolygons_to_cds
          (old_gdf.filter (fun r => B.intersects r.geometry (queryBuffer old_gdf B n radin))) []
    ∧ s1.new_cds
      = add_formatted_fields
          (split_multipolygons_to_cds
            (new_gdf.filter (fun r => B.intersects r.geometry (queryBuffer old_gdf B n radin)))
            attrCols) fmtCols B.fmt1
    ∧ s1.blocks_cds
      = add_formatted_fields
          (split_multipolygons_to_cds
            (blk_gdf.filter (fun r => B.intersects r.geometry (queryBuffer old_gdf B n radin)))
            attrCols) fmtCols B.fmt1 := by
    subst hs
    cases radin <;>
      simp [run_search, hfound, queryBuffer, effRadius]
  refine ⟨hmain.1, hmain.2.1, hmain.2.2, ?_⟩
  intro r hr hid hint hne
  rw [hmain.1]
  refine mem_split_ids _ _ r ?_ hne
  rw [List.mem_filter]
  exact ⟨hr, hint⟩

/-- C5 counterexample: searching for id 7 over a dataset holding record 7,
with a backend whose intersects predicate always holds, puts the anchor
record's own id into the old-zone neighbor ring table — the claim requires
the anchor to be excluded. -/
theorem neighbors_exclude_anchor_counterexample :
    rec7.idnum = 7
  ∧ (run_search [rec7] [] [] Btriv (.parsed 7) (.parsed 5) st0).neighbors_cds.ids = ["7"] := by
  exact ⟨rfl, by decide⟩

/-- C5 witness: in the same concrete run, the anchor's id is a member of
the neighbors table, via the amended theorem. -/
theorem filter_by_intersects_includes_anchor_witness :
    toString rec7.idnum
      ∈ (run_search [rec7] [] [] Btriv (.parsed 7) (.parsed 5) st0).neighbors_cds.ids := by
  have h := filter_by_intersects_includes_anchor [rec7] [] [] Btriv (.parsed 5) st0 _ 7
    (by decide) rfl
  exact h.2.2.2 rec7 (by simp) rfl rfl (by decide)

/-- C6: an unparseable or non-positive raw radius is coerced to the 1000
default — the buffer a successful query stores is rendered from the circle
of effective radius 1000 around the anchor union's centroid, and the query
is not rejected on account of the radius. -/
theorem radius_default_to_1000
    (old_gdf new_gdf blk_gdf : List GeoRecord) (B : Backend)
    (radin : RadiusInput) (s0 : AppState) (s1 : AppState) (n : Int)
    (hfound : (old_gdf.filter (fun r => r.idnum = n)).isEmpty = false)
    (hrad : radin = .invalid ∨ ∃ r, radin = .parsed r ∧ r ≤ 0)
    (hs : s1 = run_search old_gdf new_gdf blk_gdf B (.parsed n) radin s0) :
    effRadius radin = 1000
  ∧ s1.buffer_cds
      = { xs := [(queryBuffer old_gdf B n radin).ext.map Prod.fst]
        , ys := [(queryBuffer old_gdf B n radin).ext.map Prod.snd]
        , ids := [toString n], attrs := [], fmts := [] }
  ∧ s1.search_label = labelSearching n := by
  subst hs
  rcases hrad with rfl | ⟨r, rfl, hr⟩
  · refine ⟨rfl, ?_, ?_⟩ <;>
      simp [run_search, hfound, queryBuffer, effRadius]
  · refine ⟨by simp [effRadius, hr], ?_, ?_⟩ <;>
      simp [run_search, hfound, queryBuffer, effRadius, hr]

/-- C6 witness: a concrete successful query with unparseable radius uses
radius 1000 and ends with the success label. -/
theorem radius_default_to_1000_witness :
    effRadius RadiusInput.invalid = 1000
  ∧ (run_search [rec7] [] [] Btriv (.parsed 7) .invalid st0).search_label = labelSearching 7 := by
  have h := radius_default_to_1000 [rec7] [] [] Btriv .invalid st0 _ 7 (by decide)
    (Or.inl rfl) rfl
  exact ⟨h.1, h.2.2⟩

/-- C8: after every successful query the row selections on the new-zone and
block ring tables are empty and both attribute tables hold exactly the one
Sum row with every numeric column 0. -/
theorem search_success_resets_tables
    (old_gdf new_gdf blk_gdf : List GeoRecord) (B : Backend)
    (radin : RadiusInput) (s0 : AppState) (s1 : AppState) (n : Int)
    (hfound : (old_gdf.filter (fun r => r.idnum = n)).isEmpty = false)
    (hs : s1 = run_search old_gdf new_gdf blk_gdf B (.parsed n) radin s0) :
    s1.new_sel = [] ∧ s1.blocks_sel = []
  ∧ s1.new_table
      = ("id", [CellValue.str "Sum"]) :: numColNames.map (fun c => (c, [CellValue.num 0]))
  ∧ s1.blocks_table
      = ("id", [CellValue.str "Sum"]) :: numColNames.map (fun c => (c, [CellValue.num 0])) := by
  subst hs
  cases radin <;>
    simp [run_search, hfound, update_new_taz_table_empty, update_blocks_table_empty]

/-- C8 witness: the concrete successful query leaves the new-zone selection
empty and the new-zone table holding only the zero Sum row. -/
theorem search_success_resets_tables_witness :
    (run_search [rec7] [] [] Btriv (.parsed 7) (.parsed 5) st0).new_sel = []
  ∧ (run_search [rec7] [] [] Btriv (.parsed 7) (.parsed 5) st0).new_table
      = ("id", [CellValue.str "Sum"]) :: numColNames.map (fun c => (c, [CellValue.num 0])) := by
  have h := search_success_resets_tables [rec7] [] [] Btriv (.parsed 5) st0 _ 7
    (by decide) rfl
  exact ⟨h.1, h.2.2.1⟩

/-- C4 (amended): every failing query — empty input, non-integer id, or an
id matching no old-zone record — ends rejected and leaves every piece of
previously computed derived state (ring tables, label tables, selection
tables, buffer, centroid, selections, viewports, overlay) exactly as
before; besides the status indicator, the only other change is that the
not-found path with an unparseable raw radius rewrites the radius input
field to the default "1000". -/
theorem search_failure_preserves_state
    (old_gdf new_gdf blk_gdf : List GeoRecord) (B : Backend)
    (idin : IdInput) (radin : RadiusInput) (s0 : AppState) (s1 : AppState)
    (hfail : idin = .empty ∨ idin = .invalid ∨
      ∃ n, idin = .parsed n ∧ (old_gdf.filter (fun r => r.idnum = n)).isEmpty = true)
    (hs : s1 = run_search old_gdf new_gdf blk_gdf B idin radin s0) :
    (s1.search_label = labelNoInput ∨ s1.search_label = labelNotFound)
  ∧ s1.buffer_cds = s0.buffer_cds
  ∧ s1.neighbors_cds = s0.neighbors_cds
  ∧ s1.old_cds = s0.old_cds
  ∧ s1.new_cds = s0.new_cds
  ∧ s1.blocks_cds = s0.blocks_cds
  ∧ s1.old_blocks_cds = s0.old_blocks_cds
  ∧ s1.new_blocks_cds = s0.new_blocks_cds
  ∧ s1.combined_old_cds = s0.combined_old_cds
  ∧ s1.combined_new_cds = s0.combined_new_cds
  ∧ s1.combined_blocks_cds = s0.combined_blocks_cds
  ∧ s1.old_text = s0.old_text
  ∧ s1.new_text = s0.new_text
  ∧ s1.extra_cds = s0.extra_cds
  ∧ s1.extra_text = s0.extra_text
  ∧ s1.new_sel = s0.new_sel
  ∧ s1.blocks_sel = s0.blocks_sel
  ∧ s1.new_table = s0.new_table
  ∧ s1.blocks_table = s0.blocks_table
  ∧ s1.vp_old = s0.vp_old
  ∧ s1.vp_new = s0.vp_new
  ∧ s1.vp_combined = s0.vp_combined
  ∧ s1.vp_blocks = s0.vp_blocks
  ∧ s1.centroid_cx = s0.centroid_cx
  ∧ s1.centroid_cy = s0.centroid_cy
  ∧ (idin = .empty ∨ idin = .invalid ∨ radin ≠ .invalid →
      s1.radius_val = s0.radius_val) := by
  subst hs
  rcases hfail with rfl | rfl | ⟨n, rfl, hsub⟩
  · simp [run_search]
  · simp [run_search]
  · cases radin with
    | invalid =>
      simp [run_search, hsub]
    | parsed r =>
      simp [run_search, hsub]

/-- C4 counterexample: the not-found query for id 500 with raw radius
`"abc"` ends rejected, yet it also rewrites the radius input field from
`"abc"` to `"1000"` — a state change beyond the status indicator. -/
theorem search_failure_radius_box_counterexample :
    (run_search [] [] [] Btriv (.parsed 500) .invalid st0).search_label = labelNotFound
  ∧ st0.radius_val = "abc"
  ∧ (run_search [] [] [] Btriv (.parsed 500) .invalid st0).radius_val = "1000"
  ∧ (run_search [] [] [] Btriv (.parsed 500) .invalid st0).radius_val ≠ st0.radius_val := by
  refine ⟨rfl, rfl, rfl, by decide⟩

/-- C4 witness: a concrete not-found query (id 500 absent, radius parsed)
leaves the derived state untouched and the radius field unchanged. -/
theorem search_failure_preserves_state_witness :
    (run_search [rec7] [] [] Btriv (.parsed 500) (.parsed 5) st0).new_cds = st0.new_cds
  ∧ (run_search [rec7] [] [] Btriv (.parsed 500) (.parsed 5) st0).vp_old = st0.vp_old
  ∧ (run_search [rec7] [] [] Btriv (.parsed 500) (.parsed 5) st0).radius_val = st0.radius_val := by
  have h := search_failure_preserves_state [rec7] [] [] Btriv (.parsed 500) (.parsed 5) st0 _
    (Or.inr (Or.inr ⟨500, rfl, by decide⟩)) rfl
  exact ⟨h.2.2.2.2.1, h.2.2.2.2.2.2.2.2.2.2.2.2.2.2.2.2.2.2.2.1,
    h.2.2.2.2.2.2.2.2.2.2.2.2.2.2.2.2.2.2.2.2.2.2.2.2.2 (Or.inr (Or.inr (by simp)))⟩

/-- C7: an empty or partially unparseable extra-id list clears both overlay
tables to empty (never a partial result), and the extra-search path never
modifies viewport or selection state, whatever the input. -/
theorem extra_search_clears_overlay
    (old_gdf : List GeoRecord) (inp : ExtraInput) (s0 : AppState) (s1 : AppState)
    (hs : s1 = run_extra_search old_gdf inp s0) :
    (inp = .empty ∨ (∃ ts, inp = .toks ts ∧ ts.any (fun t => t.isNone) = true) →
      s1.extra_cds = emptyCDS ∧ s1.extra_text = emptyText)
  ∧ s1.vp_old = s0.vp_old
  ∧ s1.vp_new = s0.vp_new
  ∧ s1.vp_combined = s0.vp_combined
  ∧ s1.vp_blocks = s0.vp_blocks
  ∧ s1.new_sel = s0.new_sel
  ∧ s1.blocks_sel = s0.blocks_sel := by
  subst hs
  cases inp with
  | empty =>
    simp [run_extra_search, clearExtra]
  | toks ts =>
    by_cases hany : ts.any (fun t => t.isNone) = true
    · simp [run_extra_search, hany, clearExtra]
    · refine ⟨?_, ?_⟩
      · intro hcl
        rcases hcl with h | ⟨ts2, hts, h2⟩
        · exact absurd h (by simp)
        · obtain rfl : ts2 = ts := (ExtraInput.toks.inj hts).symm
          exact absurd h2 hany
      · simp only [run_extra_search]
        rw [if_neg (by simpa using hany)]
        split
        · simp [clearExtra]
        · simp

/-- C7 witness: the scenario input "10, 11, abc" (last token unparseable)
clears both overlay tables entirely and leaves the viewport untouched. -/
theorem extra_search_clears_overlay_witness :
    (run_extra_search [rec7] (.toks [some 10, some 11, none]) st0).extra_cds = emptyCDS
  ∧ (run_extra_search [rec7] (.toks [some 10, some 11, none]) st0).extra_text = emptyText
  ∧ (run_extra_search [rec7] (.toks [some 10, some 11, none]) st0).vp_old = st0.vp_old := by
  have h := extra_search_clears_overlay [rec7] (.toks [some 10, some 11, none]) st0 _ rfl
  have hcl := h.1 (Or.inr ⟨[some 10, some 11, none], rfl, by decide⟩)
  exact ⟨hcl.1, hcl.2, h.2.1⟩
